import Mathlib

/-
Verification of the client-side data-access layer in
src/front-end/src/utils/api.js against its specification.

The JavaScript file is shallowly embedded: JavaScript values are modelled by
the inductive type JsValue, the shared request executor fetchJson by a pure
function over an explicit fetch outcome, and every exported operation by a
function from its arguments and the fetch outcome to the HTTP request it
issues together with the settled result of its returned promise.
-/

namespace Api

/-! ## JavaScript value model

JSON-representable JavaScript values, plus the distinguished value
undefined. Arrays and objects carry their own spine types so that all
recursions below are structural. JavaScript numbers are modelled by Int
(the source only ever interpolates and serializes integer ids and opaque
record fields; no float arithmetic occurs in api.js). -/

mutual
inductive JsValue : Type where
  | undefined : JsValue
  | null : JsValue
  | bool (b : Bool) : JsValue
  | num (n : Int) : JsValue
  | str (s : String) : JsValue
  | arr (elems : JsArr) : JsValue
  | obj (fields : JsObj) : JsValue
  deriving Repr, DecidableEq

inductive JsArr : Type where
  | nil : JsArr
  | cons (v : JsValue) (rest : JsArr) : JsArr
  deriving Repr, DecidableEq

inductive JsObj : Type where
  | nil : JsObj
  | cons (key : String) (v : JsValue) (rest : JsObj) : JsObj
  deriving Repr, DecidableEq
end

/-- Property lookup in an object literal. JavaScript objects have at most one
binding per key; all objects built in this development are duplicate-free, and
lookup returns the first binding. -/
def JsObj.lookupField : JsObj → String → Option JsValue
  | .nil, _ => none
  | .cons k v rest, key => if k = key then some v else rest.lookupField key

/-- JavaScript truthiness, as used by `if (payload.error)` on api.js line 41:
undefined, null, false, 0 and the empty string are falsy; every other value
(including every object and array) is truthy. -/
def truthy : JsValue → Bool
  | .undefined => false
  | .null => false
  | .bool b => b
  | .num n => n != 0
  | .str s => s != ""
  | .arr _ => true
  | .obj _ => true

/-- JavaScript property access `base.key` (also the destructuring
`const \x7b key \x7d = base`): throws a TypeError when the base is null or
undefined, yields the bound value (or undefined when the property is absent)
on an object, and yields undefined on any other primitive base. -/
def jsGetField : JsValue → String → Except String JsValue
  | .null, _ => .error "TypeError"
  | .undefined, _ => .error "TypeError"
  | .obj fields, key => .ok ((fields.lookupField key).getD .undefined)
  | _, _ => .ok .undefined

/-! ## String conversion (template literals and `.toString()`)

Models the JavaScript ToString conversion applied by the template literals
building URLs and by `value.toString()` on api.js line 61. Array conversion
joins the converted elements with commas, rendering null and undefined
elements as the empty string. -/

mutual
def jsToString : JsValue → String
  | .undefined => "undefined"
  | .null => "null"
  | .bool true => "true"
  | .bool false => "false"
  | .num n => toString n
  | .str s => s
  | .obj _ => "[object Object]"
  | .arr elems => arrJoin elems

def arrJoin : JsArr → String
  | .nil => ""
  | .cons .undefined .nil => ""
  | .cons .null .nil => ""
  | .cons v .nil => jsToString v
  | .cons .undefined rest => "," ++ arrJoin rest
  | .cons .null rest => "," ++ arrJoin rest
  | .cons v rest => jsToString v ++ "," ++ arrJoin rest
end

/-! ## JSON serialization (`JSON.stringify`) -/

def hexDigitLower (n : Nat) : Char :=
  if n < 10 then Char.ofNat (48 + n) else Char.ofNat (87 + n)

/-- Escaping of a single character inside a JSON string literal, following
JSON.stringify: quote, backslash and the named control characters get
two-character escapes, other control characters get a \u00XX escape, and
every remaining character is emitted verbatim. -/
def escapeJsonChar (c : Char) : String :=
  if c = Char.ofNat 34 then "\\\""
  else if c = Char.ofNat 92 then "\\\\"
  else if c = Char.ofNat 8 then "\\b"
  else if c = Char.ofNat 9 then "\\t"
  else if c = Char.ofNat 10 then "\\n"
  else if c = Char.ofNat 12 then "\\f"
  else if c = Char.ofNat 13 then "\\r"
  else if c.toNat < 32 then
    "\\u00" ++ String.singleton (hexDigitLower (c.toNat / 16))
            ++ String.singleton (hexDigitLower (c.toNat % 16))
  else String.singleton c

def jsonQuote (s : String) : String :=
  "\"" ++ String.join (s.toList.map escapeJsonChar) ++ "\""

mutual
/-- `JSON.stringify`. Returns none exactly when JavaScript returns undefined
(stringifying the value undefined); api.js only ever stringifies object
literals, for which the result is always some string. -/
def jsonStringify : JsValue → Option String
  | .undefined => none
  | .null => some "null"
  | .bool true => some "true"
  | .bool false => some "false"
  | .num n => some (toString n)
  | .str s => some (jsonQuote s)
  | .arr elems => some ("[" ++ stringifyItems elems ++ "]")
  | .obj fields => some ("\x7b" ++ String.intercalate "," (memberStrings fields) ++ "\x7d")

/-- Array elements: an element that stringifies to undefined is emitted as
null, per JSON.stringify. -/
def stringifyItems : JsArr → String
  | .nil => ""
  | .cons v .nil => (jsonStringify v).getD "null"
  | .cons v rest => (jsonStringify v).getD "null" ++ "," ++ stringifyItems rest

/-- Object members: a member whose value stringifies to undefined is omitted,
per JSON.stringify. -/
def memberStrings : JsObj → List String
  | .nil => []
  | .cons k v rest =>
    match jsonStringify v with
    | none => memberStrings rest
    | some s => (jsonQuote k ++ ":" ++ s) :: memberStrings rest
end

/-! ## URL query serialization (`URLSearchParams`) -/

def hexDigitUpper (n : Nat) : Char :=
  if n < 10 then Char.ofNat (48 + n) else Char.ofNat (55 + n)

/-- UTF-8 byte sequence of a code point, for percent-encoding. -/
def utf8Bytes (n : Nat) : List Nat :=
  if n < 128 then [n]
  else if n < 2048 then [192 + n / 64, 128 + n % 64]
  else if n < 65536 then [224 + n / 4096, 128 + (n / 64) % 64, 128 + n % 64]
  else [240 + n / 262144, 128 + (n / 4096) % 64, 128 + (n / 64) % 64, 128 + n % 64]

def percentEncodeByte (b : Nat) : String :=
  "%" ++ String.singleton (hexDigitUpper (b / 16)) ++ String.singleton (hexDigitUpper (b % 16))

/-- The application/x-www-form-urlencoded serializer used by
`url.searchParams`: ASCII alphanumerics and * - . _ pass through, space
becomes +, and every other character is percent-encoded byte by byte. -/
def formUrlEncodeChar (c : Char) : String :=
  if c = Char.ofNat 32 then "+"
  else if c.isAlphanum ∨ c = Char.ofNat 42 ∨ c = Char.ofNat 45 ∨ c = Char.ofNat 46 ∨ c = Char.ofNat 95 then
    String.singleton c
  else String.join ((utf8Bytes c.toNat).map percentEncodeByte)

def formUrlEncode (s : String) : String :=
  String.join (s.toList.map formUrlEncodeChar)

def renderQuery (entries : List (String × String)) : String :=
  String.intercalate "&" (entries.map fun p => formUrlEncode p.1 ++ "=" ++ formUrlEncode p.2)

/-! ## Requests and the fetch model -/

/-- The effective HTTP request an operation hands to fetch: target URL, method
(fetch defaults to GET when the options carry no method), header list and
optional serialized body (fetch treats an undefined body as absent, which
coincides with jsonStringify returning none). -/
structure Request where
  url : String
  method : String
  headers : List (String × String)
  body : Option String
  deriving Repr, DecidableEq

/-- api.js line 8: base URL, overridable by the REACT_APP_API_BASE_URL
environment variable; the default is modelled. -/
def API_BASE_URL : String := "http://localhost:5001"

/-- api.js lines 13 to 14: the shared headers object, holding exactly the
Content-Type entry. -/
def headers : List (String × String) := [("Content-Type", "application/json")]

/-- Result of awaiting `response.json()`: either a parsed payload or a thrown
error, identified by its name (a SyntaxError for a non-JSON body, an
AbortError when the body read is cancelled). -/
inductive BodyResult : Type where
  | parsed (payload : JsValue) : BodyResult
  | failed (errName : String) : BodyResult
  deriving Repr, DecidableEq

/-- Result of awaiting `fetch(url, options)`: a response with a status code
and a body outcome, or a thrown error identified by its name — an abort of
the in-flight request surfaces as the name AbortError. -/
inductive FetchOutcome : Type where
  | response (status : Nat) (body : BodyResult) : FetchOutcome
  | failed (errName : String) : FetchOutcome
  deriving Repr, DecidableEq

/-- The settled state of the promise an operation returns: resolved with a
value, rejected with `\x7b message \x7d` carrying the given message value
(api.js line 42), or rejected with a re-thrown error of the given name
(api.js line 48, after logging). -/
inductive FetchResult : Type where
  | resolved (value : JsValue) : FetchResult
  | rejected (message : JsValue) : FetchResult
  | thrown (errName : String) : FetchResult
  deriving Repr, DecidableEq

/-- api.js lines 31 to 52, the shared executor fetchJson: await the fetch; a
204 status returns null at once; otherwise the body is parsed and a payload
with a truthy error field rejects with that value as the message, any other
payload resolves with its data field. A caught error named AbortError
resolves with the onCancel argument; every other caught error (including the
TypeError thrown by accessing .error on a null payload) is logged and
re-thrown. Note the rejection built from payload.error is returned, not
thrown, so the catch block never sees it. -/
def fetchJson (outcome : FetchOutcome) (onCancel : JsValue) : FetchResult :=
  match outcome with
  | .failed errName =>
    if errName = "AbortError" then .resolved onCancel else .thrown errName
  | .response status body =>
    if status = 204 then .resolved .null
    else
      match body with
      | .failed errName =>
        if errName = "AbortError" then .resolved onCancel else .thrown errName
      | .parsed payload =>
        match jsGetField payload "error" with
        | .error errName => .thrown errName
        | .ok errValue =>
          if truthy errValue then .rejected errValue
          else
            match jsGetField payload "data" with
            | .error errName => .thrown errName
            | .ok dataValue => .resolved dataValue

/-- `promise.then(f)` on an already-settled promise: applies f to a resolved
value and passes rejections through. -/
def promiseThen (f : JsValue → JsValue) : FetchResult → FetchResult
  | .resolved v => .resolved (f v)
  | r => r

/-! ## Display formatting of retrieved reservations -/

/-- Modelled from the spec: the module ./format-reservation-date imported on
api.js line 5 belongs to this repository but is not under src/. Per the spec,
date fields of retrieved reservations are "reformatted for display"; the
display form of a date string keeps the leading calendar-date portion and
drops any trailing timestamp portion. -/
def formatAsDate (s : String) : String :=
  String.mk (s.toList.takeWhile (fun c => c ≠ Char.ofNat 84))

/-- Rewrites the reservation_date member of a record through formatAsDate,
leaving every other member unchanged. -/
def formatDateField : JsObj → JsObj
  | .nil => .nil
  | .cons k v rest =>
    if k = "reservation_date" then
      .cons k (match v with | .str s => .str (formatAsDate s) | v => v) (formatDateField rest)
    else
      .cons k v (formatDateField rest)

def formatDateRecord : JsValue → JsValue
  | .obj fields => .obj (formatDateField fields)
  | v => v

def mapFormatDate : JsArr → JsArr
  | .nil => .nil
  | .cons v rest => .cons (formatDateRecord v) (mapFormatDate rest)

/-- Modelled from the spec: the default export of ./format-reservation-date
reformats the reservation_date field of each record of a returned sequence
(or of a single returned record), leaving non-record values unchanged. -/
def formatReservationDate : JsValue → JsValue
  | .arr elems => .arr (mapFormatDate elems)
  | v => formatDateRecord v

/-- api.js line 6 imports formatReservationTime from ./format-reservation-date
— the date module — so the name is bound to the same default export as
formatReservationDate, and no time formatting ever happens. -/
def formatReservationTime : JsValue → JsValue := formatReservationDate

/-! ## Exposed operations

Each operation is modelled as a function from its arguments and the fetch
outcome to the pair of the request it issues and the settled result of the
promise it returns. Operations whose body performs a property access that can
throw (destructuring table.table_id, reading reservation.reservation_id)
return an Except, whose error case is the thrown error name. -/

/-- api.js lines 59 to 65, listReservations(params, signal): GET on
/reservations with every params entry appended verbatim as a query parameter
(the value converted by toString), the shared headers, the empty array as the
cancellation fallback, and the result piped through formatReservationDate and
then formatReservationTime. The params object is modelled by its entry list
in Object.entries order. -/
def listReservations (params : List (String × JsValue)) (outcome : FetchOutcome) :
    Request × FetchResult :=
  let entries := params.map fun p => (p.1, jsToString p.2)
  let url :=
    if entries.isEmpty then API_BASE_URL ++ "/reservations"
    else API_BASE_URL ++ "/reservations?" ++ renderQuery entries
  ({ url := url, method := "GET", headers := headers, body := none },
   promiseThen formatReservationTime
     (promiseThen formatReservationDate (fetchJson outcome (.arr .nil))))

/-- api.js lines 77 to 80, searchByPhone(mobile_number, signal): GET on
/reservations?mobile_number=... built by a template literal; the options
carry only the signal — no headers — and no cancellation fallback is passed,
so an abort resolves with undefined. -/
def searchByPhone (mobile_number : JsValue) (outcome : FetchOutcome) :
    Request × FetchResult :=
  ({ url := API_BASE_URL ++ "/reservations?mobile_number=" ++ jsToString mobile_number,
     method := "GET", headers := [], body := none },
   fetchJson outcome .undefined)

/-- api.js lines 92 to 101, createReservation(reservation, signal): POST on
/reservations with body JSON.stringify(\x7b data: reservation \x7d), the
shared headers, and the empty object as the cancellation fallback. -/
def createReservation (reservation : JsValue) (outcome : FetchOutcome) :
    Request × FetchResult :=
  ({ url := API_BASE_URL ++ "/reservations", method := "POST", headers := headers,
     body := jsonStringify (.obj (.cons "data" reservation .nil)) },
   fetchJson outcome (.obj .nil))

/-- api.js lines 113 to 116, readReservation(reservation_id, signal): GET on
/reservations/:id; options carry only the signal, no cancellation fallback. -/
def readReservation (reservation_id : JsValue) (outcome : FetchOutcome) :
    Request × FetchResult :=
  ({ url := API_BASE_URL ++ "/reservations/" ++ jsToString reservation_id,
     method := "GET", headers := [], body := none },
   fetchJson outcome .undefined)

/-- api.js lines 130 to 140, seatReservation(reservation_id, table, signal):
destructures table.table_id, then PUT on /tables/:table_id/seat with body
JSON.stringify(\x7b data: \x7b reservation_id \x7d \x7d), the shared headers
and the empty object fallback. -/
def seatReservation (reservation_id table : JsValue) (outcome : FetchOutcome) :
    Except String (Request × FetchResult) :=
  match jsGetField table "table_id" with
  | .error errName => .error errName
  | .ok table_id =>
    .ok ({ url := API_BASE_URL ++ "/tables/" ++ jsToString table_id ++ "/seat",
           method := "PUT", headers := headers,
           body := jsonStringify
             (.obj (.cons "data" (.obj (.cons "reservation_id" reservation_id .nil)) .nil)) },
         fetchJson outcome (.obj .nil))

/-- api.js lines 152 to 161, updateReservation(reservation, signal): PUT on
/reservations/:reservation_id (read off the record) with body
JSON.stringify(\x7b data: reservation \x7d), the shared headers and the empty
object fallback. -/
def updateReservation (reservation : JsValue) (outcome : FetchOutcome) :
    Except String (Request × FetchResult) :=
  match jsGetField reservation "reservation_id" with
  | .error errName => .error errName
  | .ok rid =>
    .ok ({ url := API_BASE_URL ++ "/reservations/" ++ jsToString rid,
           method := "PUT", headers := headers,
           body := jsonStringify (.obj (.cons "data" reservation .nil)) },
         fetchJson outcome (.obj .nil))

/-- api.js lines 175 to 184, updateReservationStatus(reservation_id, status,
signal): PUT on /reservations/:id/status with body
JSON.stringify(\x7b data: \x7b status \x7d \x7d), the shared headers and the
empty object fallback. -/
def updateReservationStatus (reservation_id status : JsValue) (outcome : FetchOutcome) :
    Request × FetchResult :=
  ({ url := API_BASE_URL ++ "/reservations/" ++ jsToString reservation_id ++ "/status",
     method := "PUT", headers := headers,
     body := jsonStringify (.obj (.cons "data" (.obj (.cons "status" status .nil)) .nil)) },
   fetchJson outcome (.obj .nil))

/-- api.js lines 194 to 197, listTables(signal): GET on /tables; options carry
only the signal, no cancellation fallback. -/
def listTables (outcome : FetchOutcome) : Request × FetchResult :=
  ({ url := API_BASE_URL ++ "/tables", method := "GET", headers := [], body := none },
   fetchJson outcome .undefined)

/-- api.js lines 209 to 218, createTable(table, signal): POST on /tables with
body JSON.stringify(\x7b data: table \x7d), the shared headers and the empty
object fallback. -/
def createTable (table : JsValue) (outcome : FetchOutcome) :
    Request × FetchResult :=
  ({ url := API_BASE_URL ++ "/tables", method := "POST", headers := headers,
     body := jsonStringify (.obj (.cons "data" table .nil)) },
   fetchJson outcome (.obj .nil))

/-- api.js lines 230 to 233, readTableByReservation(reservation_id, signal):
GET on /tables/seated/:reservation_id; options carry only the signal, no
cancellation fallback. -/
def readTableByReservation (reservation_id : JsValue) (outcome : FetchOutcome) :
    Request × FetchResult :=
  ({ url := API_BASE_URL ++ "/tables/seated/" ++ jsToString reservation_id,
     method := "GET", headers := [], body := none },
   fetchJson outcome .undefined)

/-- api.js lines 245 to 254, finishTable(table, signal): destructures
table.table_id, then DELETE on /tables/:table_id/seat with the shared
headers, no body, and the empty object fallback. -/
def finishTable (table : JsValue) (outcome : FetchOutcome) :
    Except String (Request × FetchResult) :=
  match jsGetField table "table_id" with
  | .error errName => .error errName
  | .ok table_id =>
    .ok ({ url := API_BASE_URL ++ "/tables/" ++ jsToString table_id ++ "/seat",
           method := "DELETE", headers := headers, body := none },
         fetchJson outcome (.obj .nil))

/-- A concrete table argument, used to instantiate the operations that read
table.table_id when a claim quantifies over the rest of the arguments. -/
def exampleTable : JsValue := .obj (.cons "table_id" (.num 1) .nil)

/-- A concrete reservation argument carrying an id, used to instantiate
updateReservation when a claim quantifies over the rest of the arguments. -/
def exampleReservation : JsValue := .obj (.cons "reservation_id" (.num 1) .nil)

end Api

namespace Api

/-! ## Shared lemmas about the executor -/

/-- A non-204 response whose payload is an object with a truthy error field
rejects with that field value, whatever the status and fallback. -/
theorem fetchJson_rejects (status : Nat) (fields : JsObj) (e : JsValue)
    (hst : status ≠ 204) (hlook : fields.lookupField "error" = some e)
    (he : truthy e = true) (onCancel : JsValue) :
    fetchJson (.response status (.parsed (.obj fields))) onCancel = .rejected e := by
  simp [fetchJson, jsGetField, hst, hlook, he]

/-- A non-204 response whose payload is an object with a falsy error field
resolves with the data field (undefined when absent), whatever the status. -/
theorem fetchJson_resolves_falsy (status : Nat) (fields : JsObj) (e : JsValue)
    (hst : status ≠ 204) (hlook : fields.lookupField "error" = some e)
    (he : truthy e = false) (onCancel : JsValue) :
    fetchJson (.response status (.parsed (.obj fields))) onCancel
      = .resolved ((fields.lookupField "data").getD .undefined) := by
  simp [fetchJson, jsGetField, hst, hlook, he]

/-- A non-204 response whose payload is an object with no error field
resolves with the data field (undefined when absent), whatever the status. -/
theorem fetchJson_resolves_noField (status : Nat) (fields : JsObj)
    (hst : status ≠ 204) (hlook : fields.lookupField "error" = none)
    (onCancel : JsValue) :
    fetchJson (.response status (.parsed (.obj fields))) onCancel
      = .resolved ((fields.lookupField "data").getD .undefined) := by
  simp [fetchJson, jsGetField, hst, hlook, truthy]

end Api

namespace Api

/-- Claim C4: for every operation, a response with HTTP status 204 resolves
immediately with null (the empty-content result), without error — and
independently of the body outcome, which models that the body is never
parsed: the conclusion holds for every BodyResult, including a body whose
read would fail. -/
theorem claim4_status204_empty (body : BodyResult)
    (onCancel mn r rid stv t : JsValue) (params : List (String × JsValue)) :
    fetchJson (.response 204 body) onCancel = .resolved .null ∧
    (listReservations params (.response 204 body)).2 = .resolved .null ∧
    (searchByPhone mn (.response 204 body)).2 = .resolved .null ∧
    (createReservation r (.response 204 body)).2 = .resolved .null ∧
    (readReservation rid (.response 204 body)).2 = .resolved .null ∧
    (seatReservation rid exampleTable (.response 204 body)).map Prod.snd
      = .ok (.resolved .null) ∧
    (updateReservation exampleReservation (.response 204 body)).map Prod.snd
      = .ok (.resolved .null) ∧
    (updateReservationStatus rid stv (.response 204 body)).2 = .resolved .null ∧
    (listTables (.response 204 body)).2 = .resolved .null ∧
    (createTable t (.response 204 body)).2 = .resolved .null ∧
    (readTableByReservation rid (.response 204 body)).2 = .resolved .null ∧
    (finishTable exampleTable (.response 204 body)).map Prod.snd
      = .ok (.resolved .null) := by
  have h : ∀ oc, fetchJson (.response 204 body) oc = .resolved .null := by
    intro oc; simp [fetchJson]
  refine ⟨h _, ?_, ?_, ?_, ?_, ?_, ?_, ?_, ?_, ?_, ?_, ?_⟩ <;>
    simp [listReservations, searchByPhone, createReservation, readReservation,
      seatReservation, updateReservation, updateReservationStatus, listTables,
      createTable, readTableByReservation, finishTable, exampleTable,
      exampleReservation, jsGetField, JsObj.lookupField, promiseThen,
      Except.map, formatReservationTime, formatReservationDate,
      formatDateRecord, h]

/-- Claim C3 (amended): cancelling an in-flight request (the transport throws
an error named AbortError) resolves every operation without throwing, with
the fallback the operation actually passes to the executor: the empty array
for listReservations; the empty object for the write operations
createReservation, seatReservation, updateReservation,
updateReservationStatus, createTable and finishTable; and undefined for
searchByPhone, readReservation, listTables and readTableByReservation, which
pass no fallback at all. -/
theorem claim3_abort_fallbacks
    (mn r rid stv t : JsValue) (params : List (String × JsValue)) :
    (listReservations params (.failed "AbortError")).2 = .resolved (.arr .nil) ∧
    (searchByPhone mn (.failed "AbortError")).2 = .resolved .undefined ∧
    (createReservation r (.failed "AbortError")).2 = .resolved (.obj .nil) ∧
    (readReservation rid (.failed "AbortError")).2 = .resolved .undefined ∧
    (seatReservation rid exampleTable (.failed "AbortError")).map Prod.snd
      = .ok (.resolved (.obj .nil)) ∧
    (updateReservation exampleReservation (.failed "AbortError")).map Prod.snd
      = .ok (.resolved (.obj .nil)) ∧
    (updateReservationStatus rid stv (.failed "AbortError")).2
      = .resolved (.obj .nil) ∧
    (listTables (.failed "AbortError")).2 = .resolved .undefined ∧
    (createTable t (.failed "AbortError")).2 = .resolved (.obj .nil) ∧
    (readTableByReservation rid (.failed "AbortError")).2 = .resolved .undefined ∧
    (finishTable exampleTable (.failed "AbortError")).map Prod.snd
      = .ok (.resolved (.obj .nil)) := by
  refine ⟨?_, ?_, ?_, ?_, ?_, ?_, ?_, ?_, ?_, ?_, ?_⟩ <;>
    simp [listReservations, searchByPhone, createReservation, readReservation,
      seatReservation, updateReservation, updateReservationStatus, listTables,
      createTable, readTableByReservation, finishTable, exampleTable,
      exampleReservation, jsGetField, JsObj.lookupField, promiseThen, fetchJson,
      Except.map, formatReservationTime, formatReservationDate,
      formatDateRecord, mapFormatDate]

/-- Claim C3 counterexample: readReservation is a single-record operation, yet
an aborted call resolves with undefined, not with the empty object the claim
prescribes for single-record operations (readReservation passes no fallback). -/
theorem claim3_counterexample :
    (readReservation (.num 5) (.failed "AbortError")).2 = .resolved .undefined ∧
    (readReservation (.num 5) (.failed "AbortError")).2 ≠ .resolved (.obj .nil) := by
  exact ⟨rfl, by decide⟩

/-- Claim C9 (amended): the operations that pass the shared headers object —
listReservations and the write operations createReservation, seatReservation,
updateReservation, updateReservationStatus, createTable and finishTable —
attach exactly the Content-Type: application/json header; the remaining GET
operations searchByPhone, readReservation, listTables and
readTableByReservation pass options without a headers entry and so attach no
headers at all. -/
theorem claim9_headers (o : FetchOutcome)
    (mn r rid stv t : JsValue) (params : List (String × JsValue)) :
    headers = [("Content-Type", "application/json")] ∧
    (listReservations params o).1.headers = headers ∧
    (createReservation r o).1.headers = headers ∧
    (seatReservation rid exampleTable o).map (fun p => p.1.headers)
      = .ok headers ∧
    (updateReservation exampleReservation o).map (fun p => p.1.headers)
      = .ok headers ∧
    (updateReservationStatus rid stv o).1.headers = headers ∧
    (createTable t o).1.headers = headers ∧
    (finishTable exampleTable o).map (fun p => p.1.headers) = .ok headers ∧
    (searchByPhone mn o).1.headers = [] ∧
    (readReservation rid o).1.headers = [] ∧
    (listTables o).1.headers = [] ∧
    (readTableByReservation rid o).1.headers = [] :=
  ⟨rfl, rfl, rfl, rfl, rfl, rfl, rfl, rfl, rfl, rfl, rfl, rfl⟩

/-- Claim C9 counterexample: searchByPhone passes options carrying only the
signal, so its request has an empty header list — no Content-Type header is
attached, refuting the claim that every operation attaches one. -/
theorem claim9_counterexample :
    (searchByPhone (.str "8005551212") (.response 200 (.parsed .null))).1.headers
      = [] ∧
    ([] : List (String × String)) ≠ headers := by
  exact ⟨rfl, by decide⟩

end Api

namespace Api

/-- Claim C1 (amended): for every exposed operation, if the response status is
not 204 (a 204 response returns before the body is read and, in fetch, never
carries a readable JSON body) and the body parses as a JSON object whose
error field holds a truthy value, the call rejects with a result whose
message equals that field value — for every such HTTP status code, 2xx or
not. -/
theorem claim1_truthy_error_rejects (status : Nat) (fields : JsObj) (e : JsValue)
    (outc : FetchOutcome) (houtc : outc = .response status (.parsed (.obj fields)))
    (hst : status ≠ 204) (hlook : fields.lookupField "error" = some e)
    (he : truthy e = true)
    (onCancel mn r rid stv t : JsValue) (params : List (String × JsValue)) :
    fetchJson outc onCancel = .rejected e ∧
    (listReservations params outc).2 = .rejected e ∧
    (searchByPhone mn outc).2 = .rejected e ∧
    (createReservation r outc).2 = .rejected e ∧
    (readReservation rid outc).2 = .rejected e ∧
    (seatReservation rid exampleTable outc).map Prod.snd = .ok (.rejected e) ∧
    (updateReservation exampleReservation outc).map Prod.snd = .ok (.rejected e) ∧
    (updateReservationStatus rid stv outc).2 = .rejected e ∧
    (listTables outc).2 = .rejected e ∧
    (createTable t outc).2 = .rejected e ∧
    (readTableByReservation rid outc).2 = .rejected e ∧
    (finishTable exampleTable outc).map Prod.snd = .ok (.rejected e) := by
  subst houtc
  have h : ∀ oc, fetchJson (.response status (.parsed (.obj fields))) oc
      = .rejected e := fetchJson_rejects status fields e hst hlook he
  refine ⟨h _, ?_, ?_, ?_, ?_, ?_, ?_, ?_, ?_, ?_, ?_, ?_⟩ <;>
    simp [listReservations, searchByPhone, createReservation, readReservation,
      seatReservation, updateReservation, updateReservationStatus, listTables,
      createTable, readTableByReservation, finishTable, exampleTable,
      exampleReservation, jsGetField, JsObj.lookupField, promiseThen,
      Except.map, h]

/-- Claim C1 witness: a 500 response with payload error "Nope" rejects with
message "Nope". -/
theorem claim1_witness :
    fetchJson (.response 500 (.parsed (.obj (.cons "error" (.str "Nope") .nil))))
        .undefined = .rejected (.str "Nope") :=
  (claim1_truthy_error_rejects 500 (.cons "error" (.str "Nope") .nil) (.str "Nope")
    (.response 500 (.parsed (.obj (.cons "error" (.str "Nope") .nil)))) rfl
    (by decide) rfl rfl .undefined .undefined .undefined .undefined .undefined
    .undefined []).1

/-- Claim C1 counterexample: a response body that contains an error field
bound to the empty string — a falsy value — is not rejected: the call
resolves with the data field instead, so the claim as stated (any response
containing an error field rejects) is false. -/
theorem claim1_counterexample :
    fetchJson (.response 500 (.parsed (.obj (.cons "error" (.str "")
        (.cons "data" (.str "oops") .nil))))) .undefined
      = .resolved (.str "oops") ∧
    fetchJson (.response 500 (.parsed (.obj (.cons "error" (.str "")
        (.cons "data" (.str "oops") .nil))))) .undefined
      ≠ .rejected (.str "") := by
  exact ⟨rfl, by decide⟩

/-- Claim C2: for every response whose status is not 204 and whose body parses
as a JSON object with no error field, every operation resolves successfully
with the payload data field (undefined when absent) — even when the HTTP
status is a non-2xx error status. The list operation resolves with that same
data value piped through its display formatters. -/
theorem claim2_no_error_resolves (status : Nat) (fields : JsObj)
    (outc : FetchOutcome) (houtc : outc = .response status (.parsed (.obj fields)))
    (hst : status ≠ 204) (hlook : fields.lookupField "error" = none)
    (onCancel mn r rid stv t : JsValue) (params : List (String × JsValue)) :
    fetchJson outc onCancel
      = .resolved ((fields.lookupField "data").getD .undefined) ∧
    (listReservations params outc).2
      = .resolved (formatReservationTime (formatReservationDate
          ((fields.lookupField "data").getD .undefined))) ∧
    (searchByPhone mn outc).2
      = .resolved ((fields.lookupField "data").getD .undefined) ∧
    (createReservation r outc).2
      = .resolved ((fields.lookupField "data").getD .undefined) ∧
    (readReservation rid outc).2
      = .resolved ((fields.lookupField "data").getD .undefined) ∧
    (seatReservation rid exampleTable outc).map Prod.snd
      = .ok (.resolved ((fields.lookupField "data").getD .undefined)) ∧
    (updateReservation exampleReservation outc).map Prod.snd
      = .ok (.resolved ((fields.lookupField "data").getD .undefined)) ∧
    (updateReservationStatus rid stv outc).2
      = .resolved ((fields.lookupField "data").getD .undefined) ∧
    (listTables outc).2
      = .resolved ((fields.lookupField "data").getD .undefined) ∧
    (createTable t outc).2
      = .resolved ((fields.lookupField "data").getD .undefined) ∧
    (readTableByReservation rid outc).2
      = .resolved ((fields.lookupField "data").getD .undefined) ∧
    (finishTable exampleTable outc).map Prod.snd
      = .ok (.resolved ((fields.lookupField "data").getD .undefined)) := by
  subst houtc
  have h : ∀ oc, fetchJson (.response status (.parsed (.obj fields))) oc
      = .resolved ((fields.lookupField "data").getD .undefined) :=
    fetchJson_resolves_noField status fields hst hlook
  refine ⟨h _, ?_, ?_, ?_, ?_, ?_, ?_, ?_, ?_, ?_, ?_, ?_⟩ <;>
    simp [listReservations, searchByPhone, createReservation, readReservation,
      seatReservation, updateReservation, updateReservationStatus, listTables,
      createTable, readTableByReservation, finishTable, exampleTable,
      exampleReservation, jsGetField, JsObj.lookupField, promiseThen,
      Except.map, h]

/-- Claim C2 witness: a 500 response whose payload is only a data field is
treated as a success and resolves with that data. -/
theorem claim2_witness :
    fetchJson (.response 500 (.parsed (.obj (.cons "data" (.str "x") .nil))))
        .undefined = .resolved (.str "x") :=
  (claim2_no_error_resolves 500 (.cons "data" (.str "x") .nil)
    (.response 500 (.parsed (.obj (.cons "data" (.str "x") .nil)))) rfl
    (by decide) rfl .undefined .undefined .undefined .undefined .undefined
    .undefined []).1

/-- Claim C10: the error-envelope check is a truthiness test — a response
whose body parses as a JSON object carrying an error field with a falsy
value (empty string, 0, false, or null) is treated as a success by every
operation, which resolves with the payload data field instead of rejecting
(for any non-204 status; a 204 returns before the body is read). The list
operation resolves with that same data value piped through its display
formatters. -/
theorem claim10_falsy_error_resolves (status : Nat) (fields : JsObj) (e : JsValue)
    (outc : FetchOutcome) (houtc : outc = .response status (.parsed (.obj fields)))
    (hst : status ≠ 204) (hlook : fields.lookupField "error" = some e)
    (hfalsy : e = .str "" ∨ e = .num 0 ∨ e = .bool false ∨ e = .null)
    (onCancel mn r rid stv t : JsValue) (params : List (String × JsValue)) :
    fetchJson outc onCancel
      = .resolved ((fields.lookupField "data").getD .undefined) ∧
    (listReservations params outc).2
      = .resolved (formatReservationTime (formatReservationDate
          ((fields.lookupField "data").getD .undefined))) ∧
    (searchByPhone mn outc).2
      = .resolved ((fields.lookupField "data").getD .undefined) ∧
    (createReservation r outc).2
      = .resolved ((fields.lookupField "data").getD .undefined) ∧
    (readReservation rid outc).2
      = .resolved ((fields.lookupField "data").getD .undefined) ∧
    (seatReservation rid exampleTable outc).map Prod.snd
      = .ok (.resolved ((fields.lookupField "data").getD .undefined)) ∧
    (updateReservation exampleReservation outc).map Prod.snd
      = .ok (.resolved ((fields.lookupField "data").getD .undefined)) ∧
    (updateReservationStatus rid stv outc).2
      = .resolved ((fields.lookupField "data").getD .undefined) ∧
    (listTables outc).2
      = .resolved ((fields.lookupField "data").getD .undefined) ∧
    (createTable t outc).2
      = .resolved ((fields.lookupField "data").getD .undefined) ∧
    (readTableByReservation rid outc).2
      = .resolved ((fields.lookupField "data").getD .undefined) ∧
    (finishTable exampleTable outc).map Prod.snd
      = .ok (.resolved ((fields.lookupField "data").getD .undefined)) := by
  subst houtc
  have he : truthy e = false := by
    rcases hfalsy with h1 | h1 | h1 | h1 <;> subst h1 <;> rfl
  have h : ∀ oc, fetchJson (.response status (.parsed (.obj fields))) oc
      = .resolved ((fields.lookupField "data").getD .undefined) :=
    fetchJson_resolves_falsy status fields e hst hlook he
  refine ⟨h _, ?_, ?_, ?_, ?_, ?_, ?_, ?_, ?_, ?_, ?_, ?_⟩ <;>
    simp [listReservations, searchByPhone, createReservation, readReservation,
      seatReservation, updateReservation, updateReservationStatus, listTables,
      createTable, readTableByReservation, finishTable, exampleTable,
      exampleReservation, jsGetField, JsObj.lookupField, promiseThen,
      Except.map, h]

/-- Claim C10 witness: a 422 response with payload error 0 and data "kept"
resolves with "kept" instead of rejecting. -/
theorem claim10_witness :
    fetchJson (.response 422 (.parsed (.obj (.cons "error" (.num 0)
        (.cons "data" (.str "kept") .nil))))) .undefined
      = .resolved (.str "kept") :=
  (claim10_falsy_error_resolves 422
    (.cons "error" (.num 0) (.cons "data" (.str "kept") .nil)) (.num 0)
    (.response 422 (.parsed (.obj (.cons "error" (.num 0)
      (.cons "data" (.str "kept") .nil))))) rfl (by decide) rfl
    (Or.inr (Or.inl rfl)) .undefined .undefined .undefined .undefined
    .undefined .undefined []).1

end Api

namespace Api

/-- Claim C5: createReservation, called with a reservation record carrying no
reservation_id, issues one POST request to API_BASE_URL ++ "/reservations"
whose body is the JSON serialization of the envelope with the reservation
under the data key, and resolves with the data field of the JSON response;
the second conjunct evaluates the serialized body on a concrete record. -/
theorem claim5_createReservation (fields : JsObj) (st : Nat) (d : JsValue)
    (_hNoId : fields.lookupField "reservation_id" = none) (hst : st ≠ 204) :
    createReservation (.obj fields) (.response st (.parsed (.obj (.cons "data" d .nil))))
      = ({ url := API_BASE_URL ++ "/reservations", method := "POST",
           headers := headers,
           body := jsonStringify (.obj (.cons "data" (.obj fields) .nil)) },
         .resolved d) ∧
    (createReservation (.obj (.cons "first_name" (.str "Rick") .nil))
        (.response st (.parsed (.obj (.cons "data" d .nil))))).1.body
      = some "\x7b\"data\":\x7b\"first_name\":\"Rick\"\x7d\x7d" := by
  constructor
  · simp [createReservation, fetchJson, jsGetField, JsObj.lookupField, truthy, hst]
  · rfl

/-- Claim C5 witness: creating a record with only a first_name against a 201
response resolves with the returned record, which carries an id. -/
theorem claim5_witness :
    createReservation (.obj (.cons "first_name" (.str "Rick") .nil))
        (.response 201 (.parsed (.obj (.cons "data"
          (.obj (.cons "reservation_id" (.num 7) .nil)) .nil))))
      = ({ url := API_BASE_URL ++ "/reservations", method := "POST",
           headers := headers,
           body := jsonStringify (.obj (.cons "data"
             (.obj (.cons "first_name" (.str "Rick") .nil)) .nil)) },
         .resolved (.obj (.cons "reservation_id" (.num 7) .nil))) :=
  (claim5_createReservation (.cons "first_name" (.str "Rick") .nil) 201
    (.obj (.cons "reservation_id" (.num 7) .nil)) rfl (by decide)).1

/-- Claim C6 evaluation at the failing input: listReservations with params
date = "2023-01-01" does issue a GET to /reservations?date=2023-01-01 with
the params entry passed through verbatim, and the reservation_date field of
the returned record is reformatted for display — but the reservation_time
field comes back verbatim, "13:30:00", untouched: api.js line 6 imports
formatReservationTime from ./format-reservation-date, the date module, so a
time formatter is never applied and the claim that time fields are
reformatted fails. -/
theorem claim6_time_never_formatted :
    listReservations [("date", .str "2023-01-01")]
      (.response 200 (.parsed (.obj (.cons "data"
        (.arr (.cons (.obj (.cons "reservation_date" (.str "2023-01-01T06:00:00.000Z")
          (.cons "reservation_time" (.str "13:30:00") .nil))) .nil)) .nil))))
    = ({ url := "http://localhost:5001/reservations?date=2023-01-01",
         method := "GET", headers := headers, body := none },
       .resolved (.arr (.cons (.obj (.cons "reservation_date" (.str "2023-01-01")
         (.cons "reservation_time" (.str "13:30:00") .nil))) .nil))) := rfl

/-- Claim C7: finishTable issues a DELETE request to
API_BASE_URL ++ "/tables/" ++ table_id ++ "/seat" with no request body, for
any table argument whose table_id property access succeeds; in particular
with table_id 5 the URL is http://localhost:5001/tables/5/seat. -/
theorem claim7_finishTable (table table_id : JsValue) (outcome : FetchOutcome)
    (h : jsGetField table "table_id" = .ok table_id) :
    finishTable table outcome
      = .ok ({ url := API_BASE_URL ++ "/tables/" ++ jsToString table_id ++ "/seat",
               method := "DELETE", headers := headers, body := none },
             fetchJson outcome (.obj .nil)) ∧
    finishTable (.obj (.cons "table_id" (.num 5) .nil)) outcome
      = .ok ({ url := "http://localhost:5001/tables/5/seat",
               method := "DELETE", headers := headers, body := none },
             fetchJson outcome (.obj .nil)) := by
  constructor
  · simp [finishTable, h]
  · rfl

/-- Claim C7 witness: finishTable on the table with table_id 5 targets
http://localhost:5001/tables/5/seat with method DELETE and no body. -/
theorem claim7_witness :
    finishTable (.obj (.cons "table_id" (.num 5) .nil)) (.response 200 (.parsed .null))
      = .ok ({ url := "http://localhost:5001/tables/5/seat",
               method := "DELETE", headers := headers, body := none },
             fetchJson (.response 200 (.parsed .null)) (.obj .nil)) :=
  (claim7_finishTable (.obj (.cons "table_id" (.num 5) .nil)) (.num 5)
    (.response 200 (.parsed .null)) rfl).2

/-- Claim C8 counterexample: the client enforces no identifier invariant.
A reservation already carrying reservation_id 7 is submitted unimpeded — the
id is serialized into the POST body — and the record resolved from the
(successful, 201) creation is the empty object, which carries no
reservation_id. -/
theorem claim8_counterexample :
    createReservation (.obj (.cons "reservation_id" (.num 7) .nil))
        (.response 201 (.parsed (.obj (.cons "data" (.obj .nil) .nil))))
      = ({ url := "http://localhost:5001/reservations", method := "POST",
           headers := headers,
           body := some "\x7b\"data\":\x7b\"reservation_id\":7\x7d\x7d" },
         .resolved (.obj .nil)) ∧
    JsObj.lookupField .nil "reservation_id" = none :=
  ⟨rfl, rfl⟩

/-- Claim C8 (amended): the creation operations document, but do not check,
the identifier invariant: createReservation and createTable serialize
whatever record they are given — identifier or not — into the request body
and resolve with whatever record the backend returns, identifier or not. -/
theorem claim8_no_enforcement (record d : JsValue) (st : Nat) (hst : st ≠ 204) :
    createReservation record (.response st (.parsed (.obj (.cons "data" d .nil))))
      = ({ url := API_BASE_URL ++ "/reservations", method := "POST",
           headers := headers,
           body := jsonStringify (.obj (.cons "data" record .nil)) },
         .resolved d) ∧
    createTable record (.response st (.parsed (.obj (.cons "data" d .nil))))
      = ({ url := API_BASE_URL ++ "/tables", method := "POST",
           headers := headers,
           body := jsonStringify (.obj (.cons "data" record .nil)) },
         .resolved d) := by
  constructor <;>
    simp [createReservation, createTable, fetchJson, jsGetField,
      JsObj.lookupField, truthy, hst]

/-- Claim C8 witness: a record carrying reservation_id 7 is accepted by
createReservation and the call resolves with the id-less record the backend
returned. -/
theorem claim8_witness :
    createReservation (.obj (.cons "reservation_id" (.num 7) .nil))
        (.response 201 (.parsed (.obj (.cons "data" (.obj .nil) .nil))))
      = ({ url := API_BASE_URL ++ "/reservations", method := "POST",
           headers := headers,
           body := jsonStringify (.obj (.cons "data"
             (.obj (.cons "reservation_id" (.num 7) .nil)) .nil)) },
         .resolved (.obj .nil)) :=
  (claim8_no_enforcement (.obj (.cons "reservation_id" (.num 7) .nil))
    (.obj .nil) 201 (by decide)).1

end Api
